import Mathlib

/-!
Verification of the Unofficial-ChatGPT-Client-Library (`src/chatgpt_client.py`).

The Python module is embedded shallowly: network effects are modelled by an
explicit environment (`Env`) that supplies the outcome of the submission POST
and of each successive polling GET, and Python exceptions are modelled by an
explicit `PyExc` sum carried in `Except`.  An execution that would keep polling
past the supplied replies (the busy-wait loop never terminating within the
modelled trace) is represented by `Option.none`.  Each function of the source
file is translated one-to-one, keeping its name.
-/

set_option autoImplicit false

namespace ChatGPTClient

/-- Embeds `TaskStatus(Enum)` (source lines 24-29). -/
inductive TaskStatus where
  | PENDING
  | COMPLETED
  | ERROR
  | NOT_FOUND
  deriving DecidableEq, Repr

/-- The string Python produces for an f-string interpolation of a
`TaskStatus` member, as in `f"Task failed with status: {task_response.status}"`. -/
def TaskStatus.pyStr : TaskStatus → String
  | .PENDING => "TaskStatus.PENDING"
  | .COMPLETED => "TaskStatus.COMPLETED"
  | .ERROR => "TaskStatus.ERROR"
  | .NOT_FOUND => "TaskStatus.NOT_FOUND"

/-- Embeds `TaskStatus[name]`: Python `Enum.__getitem__` by member name.
`none` models the `KeyError` raised for a name that is not a member. -/
def TaskStatus.byName : String → Option TaskStatus
  | "PENDING" => some .PENDING
  | "COMPLETED" => some .COMPLETED
  | "ERROR" => some .ERROR
  | "NOT_FOUND" => some .NOT_FOUND
  | _ => none

/-- Embeds `@dataclass Message` (source lines 31-35). -/
structure Message where
  role : String
  content : String
  deriving DecidableEq, Repr

/-- Embeds `@dataclass TaskResponse` (source lines 37-42).  The `id` field is
an `Option` because the task id flowing into it is `response.json().get("id")`,
which is `None` when the submission body has no `id` key. -/
structure TaskResponse where
  id : Option String
  status : TaskStatus
  response : Option String
  deriving DecidableEq, Repr

/-- Embeds the `ChatGPTError` exception hierarchy (source lines 8-22):
`apiError` is the `APIError` subclass, `modelNotFound` the
`ModelNotFoundError` subclass, and `base` a bare `ChatGPTError` as raised
directly by `generate_response`.  One inductive models the fact that all
three are catchable as the base class. -/
inductive ChatGPTError where
  | apiError (status_code : Nat) (message : String) (description : String)
  | modelNotFound (message : String)
  | base (message : String)
  deriving DecidableEq, Repr

/-- A Python exception escaping a call of the client.  `chatgpt` is the
library's own hierarchy; `requestException` is
`requests.exceptions.RequestException` (which includes timeouts, connection
errors and, in requests >= 2.27, the `JSONDecodeError` raised by
`response.json()` on a malformed body); `keyError` models the `KeyError` of
`TaskStatus[...]`; `attributeError` models `None.upper()`. -/
inductive PyExc where
  | chatgpt (e : ChatGPTError)
  | requestException (cause : String)
  | keyError (key : String)
  | attributeError (message : String)
  deriving DecidableEq, Repr

instance {ε α : Type} [DecidableEq ε] [DecidableEq α] : DecidableEq (Except ε α) := fun x y =>
  match x, y with
  | .ok a, .ok b =>
      if h : a = b then .isTrue (by rw [h])
      else .isFalse (fun hc => h (Except.ok.inj hc))
  | .error a, .error b =>
      if h : a = b then .isTrue (by rw [h])
      else .isFalse (fun hc => h (Except.error.inj hc))
  | .ok _, .error _ => .isFalse (fun hc => Except.noConfusion hc)
  | .error _, .ok _ => .isFalse (fun hc => Except.noConfusion hc)

/-- The JSON object fields the client ever reads from a response body
(`message`, `id`, `status`, `gpt`), each `none` when the key is absent,
mirroring `dict.get`. -/
structure JsonBody where
  message : Option String
  id : Option String
  status : Option String
  gpt : Option String
  deriving DecidableEq, Repr

/-- A JSON body with every field absent. -/
def JsonBody.empty : JsonBody := ⟨none, none, none, none⟩

/-- An HTTP response as seen through `requests.Response`: its status code and
its body; `json = none` models a body on which `response.json()` raises
`requests.exceptions.JSONDecodeError`. -/
structure HttpResponse where
  status_code : Nat
  json : Option JsonBody
  deriving DecidableEq, Repr

/-- The outcome of one `requests.post`/`requests.get` call: a response, or a
`requests.exceptions.RequestException` (connection error, timeout, ...)
carrying `str(e)`. -/
inductive NetResult where
  | ok (response : HttpResponse)
  | exc (cause : String)
  deriving DecidableEq, Repr

/-- The environment of one `generate_response` call: the outcome of the
submission POST, then the outcomes of the successive polling GETs in order. -/
structure Env where
  postResult : NetResult
  pollResults : List NetResult
  deriving DecidableEq, Repr

/-- Embeds the payload dictionary built by `_create_request_payload`
(source lines 127-131). -/
structure RequestPayload where
  messages : List Message
  model : String
  markdown : Bool
  deriving DecidableEq, Repr

/-- A record of one network call the client issued: the URL, the JSON payload
for a POST, and the `timeout` keyword argument passed to `requests`
(`none` when the call passes no timeout, in which case `requests` waits
indefinitely). -/
inductive NetCall where
  | post (url : String) (body : RequestPayload) (timeout : Option Nat)
  | get (url : String) (timeout : Option Nat)
  deriving DecidableEq, Repr

/-- The `timeout` keyword argument a recorded network call was issued with. -/
def NetCall.timeoutArg : NetCall → Option Nat
  | .post _ _ t => t
  | .get _ t => t

/-- Embeds the `GPTClient` instance state set in `__init__`
(source lines 67-75): `base_url` and `timeout` (seconds, default 30). -/
structure GPTClient where
  base_url : String
  timeout : Nat
  deriving DecidableEq, Repr

/-- Embeds `GPTClient.__init__` with its default timeout of 30. -/
def GPTClient.init : GPTClient := ⟨"https://nexra.aryahcr.cc/api/chat", 30⟩

/-- Embeds `self.available_models` (source lines 76-102), an insertion-ordered
dictionary from display label to provider identifier. -/
def available_models : List (String × String) :=
  [("GPT-4", "gpt-4"),
   ("GPT-4-0613", "gpt-4-0613"),
   ("GPT-4-32k", "gpt-4-32k"),
   ("GPT-4-0314", "gpt-4-0314"),
   ("GPT-4-32k-0314", "gpt-4-32k-0314"),
   ("GPT-3.5-Turbo", "gpt-3.5-turbo"),
   ("GPT-3.5-Turbo-16k", "gpt-3.5-turbo-16k"),
   ("GPT-3.5-Turbo-0613", "gpt-3.5-turbo-0613"),
   ("GPT-3.5-Turbo-16k-0613", "gpt-3.5-turbo-16k-0613"),
   ("GPT-3.5-Turbo-0301", "gpt-3.5-turbo-0301"),
   ("Text-Davinci-003", "text-davinci-003"),
   ("Text-Davinci-002", "text-davinci-002"),
   ("Code-Davinci-002", "code-davinci-002"),
   ("GPT-3", "gpt-3"),
   ("Text-Curie-001", "text-curie-001"),
   ("Text-Babbage-001", "text-babbage-001"),
   ("Text-Ada-001", "text-ada-001"),
   ("Davinci", "davinci"),
   ("Curie", "curie"),
   ("Babbage", "babbage"),
   ("Ada", "ada"),
   ("Babbage-002", "babbage-002"),
   ("Davinci-002", "davinci-002"),
   ("GPT-4o", "gpt-4o"),
   ("ChatGPT", "chatgpt")]

/-- Embeds `validate_model` (source lines 104-114):
`model_name in self.available_models`, i.e. key membership. -/
def validate_model (model_name : String) : Bool :=
  (available_models.map Prod.fst).contains model_name

/-- Embeds Python `str.join`: `sep.join(parts)`. -/
def pyJoin (sep : String) : List String → String
  | [] => ""
  | [part] => part
  | part :: rest => part ++ sep ++ pyJoin sep rest

/-- Embeds Python `str.upper` (as used in `status.upper()`): uppercase every
character.  (Python's method is Unicode-aware; every status string the code
compares against is ASCII, where the two coincide.) -/
def pyUpper (s : String) : String := String.mk (s.data.map Char.toUpper)

/-- Embeds the f-string interpolation of an optional value
(`None` prints as "None"). -/
def pyStrOfOpt : Option String → String
  | some s => s
  | none => "None"

/-- Embeds `_create_request_payload` (source lines 116-131). -/
def _create_request_payload (messages : List Message) (model : String) : RequestPayload :=
  ⟨messages.map (fun msg => ⟨msg.role, msg.content⟩), model, false⟩

/-- Embeds the `error_mappings` dictionary of `_handle_api_error`
(source lines 143-147). -/
def error_mappings : List (Nat × String) :=
  [(429, "Too Many Requests"), (400, "Bad Request"), (500, "Internal Server Error")]

/-- Embeds `_handle_api_error` (source lines 133-151).  The function always
raises: `response.json()` may raise a `JSONDecodeError` (a
`RequestException`); otherwise an `APIError` is raised with the message from
the body (falling back to "Unknown error") and the description from
`error_mappings` (falling back to "Unexpected Error"). -/
def _handle_api_error (response : HttpResponse) : PyExc :=
  match response.json with
  | none => .requestException "JSONDecodeError"
  | some body =>
      .chatgpt (.apiError response.status_code
        (body.message.getD "Unknown error")
        ((error_mappings.lookup response.status_code).getD "Unexpected Error"))

/-- Embeds `_poll_task_status` (source lines 153-177), consuming the supplied
polling GET outcomes in order.  Returns the result of the loop (a
`TaskResponse` or a raised exception) together with the record of the GET
calls issued; `none` means the loop was still running `continue` when the
supplied outcomes ran out (the busy-wait loop does not terminate within the
modelled trace). -/
def _poll_task_status (c : GPTClient) (task_id : Option String) :
    List NetResult → Option (Except PyExc TaskResponse) × List NetCall
  | [] => (none, [])
  | result :: rest =>
    let call := NetCall.get (c.base_url ++ "/task/" ++ pyStrOfOpt task_id) none
    match result with
    | .exc cause => (some (.error (.requestException cause)), [call])
    | .ok response =>
      if response.status_code ≠ 200 then
        (some (.error (.chatgpt (.apiError response.status_code
          "Task polling failed" "Failed to retrieve task status"))), [call])
      else
        match response.json with
        | none => (some (.error (.requestException "JSONDecodeError")), [call])
        | some data =>
          match data.status with
          | none =>
            -- `status` is `None`: `status == "completed"` and `status == "pending"`
            -- are false, and the else branch evaluates `None.upper()`.
            (some (.error (.attributeError "NoneType object has no attribute upper")), [call])
          | some status =>
            if status = "completed" then
              (some (.ok ⟨task_id, .COMPLETED, data.gpt⟩), [call])
            else if status = "pending" then
              let next := _poll_task_status c task_id rest
              (next.1, call :: next.2)
            else
              match TaskStatus.byName (pyUpper status) with
              | some st => (some (.ok ⟨task_id, st, none⟩), [call])
              | none => (some (.error (.keyError (pyUpper status))), [call])

/-- The body of the `try` block of `generate_response` (source lines 200-217):
submission POST, status check via `_handle_api_error`, extraction of the task
id, polling, and the final `COMPLETED` check.  Returns the outcome (with
exceptions not yet filtered through the `except` clause) and the record of
network calls issued. -/
def generate_attempt (c : GPTClient) (env : Env) (messages : List Message)
    (model : String) : Option (Except PyExc (Option String)) × List NetCall :=
  let payload := _create_request_payload messages
    ((available_models.lookup model).getD "")
  let postCall := NetCall.post (c.base_url ++ "/gpt") payload (some c.timeout)
  match env.postResult with
  | .exc cause => (some (.error (.requestException cause)), [postCall])
  | .ok response =>
    if response.status_code ≠ 200 then
      (some (.error (_handle_api_error response)), [postCall])
    else
      match response.json with
      | none => (some (.error (.requestException "JSONDecodeError")), [postCall])
      | some body =>
        let task_id := body.id
        let polled := _poll_task_status c task_id env.pollResults
        match polled.1 with
        | none => (none, postCall :: polled.2)
        | some (.error e) => (some (.error e), postCall :: polled.2)
        | some (.ok task_response) =>
          if task_response.status = .COMPLETED then
            (some (.ok task_response.response), postCall :: polled.2)
          else
            (some (.error (.chatgpt (.base
              ("Task failed with status: " ++ task_response.status.pyStr)))),
              postCall :: polled.2)

/-- Embeds the `except requests.exceptions.RequestException as e` clause of
`generate_response` (source lines 219-220): a `RequestException` escaping the
`try` block is re-raised as `ChatGPTError(f"Request failed: {str(e)}")`;
every other outcome passes through unchanged. -/
def catchRequestException (res : Option (Except PyExc (Option String))) :
    Option (Except PyExc (Option String)) :=
  match res with
  | some (.error (.requestException cause)) =>
      some (.error (.chatgpt (.base ("Request failed: " ++ cause))))
  | other => other

/-- The message of the `ModelNotFoundError` raised by `generate_response`
(source line 195). -/
def modelNotFoundMessage (model : String) : String :=
  "Invalid model: " ++ model ++ ". Available models: " ++
    pyJoin ", " (available_models.map Prod.fst)

/-- Embeds `generate_response` (source lines 179-220): model validation, then
the `try` block, with the `except` clause applied to its outcome.  The result
is `none` when the polling loop never terminates within the supplied trace,
otherwise `some (.ok text?)` for a normal return (`text?` is `None` when the
completed reply had no `gpt` field) or `some (.error exc)` for a raised
exception. -/
def generate_response (c : GPTClient) (env : Env) (messages : List Message)
    (model : String) : Option (Except PyExc (Option String)) :=
  if ¬ validate_model model then
    some (.error (.chatgpt (.modelNotFound (modelNotFoundMessage model))))
  else
    catchRequestException (generate_attempt c env messages model).1

/-- The network calls `generate_response` issues, in order.  Validation
failure issues none; otherwise the calls are those of the `try` block. -/
def generate_response_calls (c : GPTClient) (env : Env) (messages : List Message)
    (model : String) : List NetCall :=
  if ¬ validate_model model then []
  else (generate_attempt c env messages model).2

/-! ## Observations and fixtures used to state the properties -/

/-- Whether an outcome of `generate_response` is an exception catchable as the
base class `ChatGPTError` (as opposed to e.g. a `KeyError`). -/
def resultCatchableAsChatGPTError : Option (Except PyExc (Option String)) → Bool
  | some (.error (.chatgpt _)) => true
  | _ => false

/-- A polling GET outcome that keeps the loop running: HTTP 200 with a JSON
body whose `status` field is "pending". -/
def isPendingOk : NetResult → Bool
  | .ok resp =>
      resp.status_code == 200 &&
        (match resp.json with
         | some data => data.status == some "pending"
         | none => false)
  | .exc _ => false

/-- `needle` occurs contiguously inside `hay` (stated on the character
lists). -/
def strDataContains (hay needle : String) : Prop :=
  ∃ x y : List Char, hay.data = x ++ needle.data ++ y

/-- The coarse description of section 4.3 of the spec, written from the
spec's own words: 429 gives "Too Many Requests", 400 gives "Bad Request",
500 gives "Internal Server Error", anything else gives "Unexpected Error".
Used to compare the code's `error_mappings` lookup against the spec. -/
def coarseDescription (code : Nat) : String :=
  if code = 429 then "Too Many Requests"
  else if code = 400 then "Bad Request"
  else if code = 500 then "Internal Server Error"
  else "Unexpected Error"

/-- A submission reply carrying task id "t1". -/
def okPost : NetResult := .ok ⟨200, some ⟨none, some "t1", none, none⟩⟩

/-- A polling reply with status "pending". -/
def pendOk : NetResult := .ok ⟨200, some ⟨none, none, some "pending", none⟩⟩

/-- A polling reply with status "completed" and generated text `txt`. -/
def complReply (txt : String) : NetResult :=
  .ok ⟨200, some ⟨none, none, some "completed", some txt⟩⟩

/-- A polling reply (HTTP 200) whose `status` field is `s`, with no text. -/
def statusReply (s : String) : NetResult :=
  .ok ⟨200, some ⟨none, none, some s, none⟩⟩

/-! ## Supporting lemmas -/

theorem lookup_mem {l : List (String × String)} {k v : String}
    (h : l.lookup k = some v) : (k, v) ∈ l := by
  induction l with
  | nil => simp [List.lookup] at h
  | cons p t ih =>
    obtain ⟨a, b⟩ := p
    by_cases hk : k = a
    · subst hk
      simp [List.lookup] at h
      simp [h]
    · have hne : (k == a) = false := beq_false_of_ne hk
      simp [List.lookup, hne] at h
      exact List.mem_cons_of_mem _ (ih h)

theorem contains_eq_lookup_isSome (l : List (String × String)) (k : String) :
    (l.map Prod.fst).contains k = (l.lookup k).isSome := by
  induction l with
  | nil => simp [List.lookup]
  | cons p t ih =>
    obtain ⟨a, b⟩ := p
    by_cases hk : k = a
    · subst hk
      simp [List.lookup]
    · have hne : (k == a) = false := beq_false_of_ne hk
      simp only [List.map_cons, List.contains_cons, hne, Bool.false_or, List.lookup]
      exact ih

theorem pyJoin_contains (sep : String) (L : List String) (l : String)
    (h : l ∈ L) : strDataContains (pyJoin sep L) l := by
  induction L with
  | nil => cases h
  | cons a t ih =>
    match t, ih with
    | [], _ =>
      rcases List.mem_singleton.mp h with rfl
      exact ⟨[], [], by simp [pyJoin]⟩
    | b :: t2, ih =>
      rcases List.mem_cons.mp h with rfl | hmem
      · exact ⟨[], (sep ++ pyJoin sep (b :: t2)).data, by
          simp [pyJoin, String.data_append, List.append_assoc]⟩
      · obtain ⟨x, y, hxy⟩ := ih hmem
        exact ⟨(a ++ sep).data ++ x, y, by
          simp [pyJoin, String.data_append, hxy, List.append_assoc]⟩

theorem strDataContains_append_left (pre hay needle : String)
    (h : strDataContains hay needle) : strDataContains (pre ++ hay) needle := by
  obtain ⟨x, y, hxy⟩ := h
  exact ⟨pre.data ++ x, y, by simp [String.data_append, hxy, List.append_assoc]⟩

theorem generate_attempt_fst_of_reached (c : GPTClient) (env : Env)
    (msgs : List Message) (model : String) (r : HttpResponse) (body : JsonBody)
    (hp : env.postResult = .ok r) (h200 : r.status_code = 200)
    (hj : r.json = some body) :
    (generate_attempt c env msgs model).1 =
      match (_poll_task_status c body.id env.pollResults).1 with
      | none => none
      | some (.error e) => some (.error e)
      | some (.ok t) =>
          if t.status = .COMPLETED then some (.ok t.response)
          else some (.error (.chatgpt (.base
            ("Task failed with status: " ++ t.status.pyStr)))) := by
  rcases hpoll : (_poll_task_status c body.id env.pollResults).1 with _ | res
  · simp [generate_attempt, hp, h200, hj, hpoll]
  · rcases res with e | t
    · simp [generate_attempt, hp, h200, hj, hpoll]
    · by_cases hst : t.status = .COMPLETED <;>
        simp [generate_attempt, hp, h200, hj, hpoll, hst]

theorem generate_response_of_reached (c : GPTClient) (env : Env)
    (msgs : List Message) (model : String) (r : HttpResponse) (body : JsonBody)
    (hv : validate_model model = true) (hp : env.postResult = .ok r)
    (h200 : r.status_code = 200) (hj : r.json = some body) :
    generate_response c env msgs model =
      catchRequestException
        (match (_poll_task_status c body.id env.pollResults).1 with
         | none => none
         | some (.error e) => some (.error e)
         | some (.ok t) =>
             if t.status = .COMPLETED then some (.ok t.response)
             else some (.error (.chatgpt (.base
               ("Task failed with status: " ++ t.status.pyStr))))) := by
  rw [generate_response, generate_attempt_fst_of_reached c env msgs model r body hp h200 hj]
  simp [hv]

theorem poll_fst_pending_prefix (c : GPTClient) (tid : Option String)
    (pre cont : List NetResult) (h : pre.all isPendingOk = true) :
    (_poll_task_status c tid (pre ++ cont)).1 = (_poll_task_status c tid cont).1 := by
  induction pre with
  | nil => rfl
  | cons a t ih =>
    rw [List.all_cons, Bool.and_eq_true] at h
    obtain ⟨ha, ht⟩ := h
    rcases a with resp | cause
    · rcases resp with ⟨code, json⟩
      rcases json with _ | data
      · simp [isPendingOk] at ha
      · simp only [isPendingOk, Bool.and_eq_true, beq_iff_eq] at ha
        obtain ⟨hcode, hstat⟩ := ha
        subst hcode
        simp only [List.cons_append, _poll_task_status, hstat]
        simp only [show ("pending" = "completed") = False by simp, if_false,
          if_pos rfl]
        exact ih ht
    · simp [isPendingOk] at ha

theorem poll_calls_get_none (c : GPTClient) (tid : Option String)
    (results : List NetResult) :
    ∀ call ∈ (_poll_task_status c tid results).2, ∃ u, call = NetCall.get u none := by
  induction results with
  | nil => intro call hc; simp [_poll_task_status] at hc
  | cons a t ih =>
    intro call hc
    rcases a with resp | cause
    · rcases resp with ⟨code, json⟩
      by_cases hcode : code = 200
      · subst hcode
        rcases json with _ | data
        · simp [_poll_task_status] at hc
          exact ⟨_, hc⟩
        · rcases data with ⟨m, i, st, g⟩
          rcases st with _ | s
          · simp [_poll_task_status] at hc
            exact ⟨_, hc⟩
          · by_cases hcompl : s = "completed"
            · subst hcompl
              simp [_poll_task_status] at hc
              exact ⟨_, hc⟩
            · by_cases hpend : s = "pending"
              · subst hpend
                simp [_poll_task_status] at hc
                rcases hc with hc | hc
                · exact ⟨_, hc⟩
                · exact ih call hc
              · rcases hname : TaskStatus.byName (pyUpper s) with _ | st <;>
                  · simp [_poll_task_status, hcompl, hpend, hname] at hc
                    exact ⟨_, hc⟩
      · simp [_poll_task_status, hcode] at hc
        exact ⟨_, hc⟩
    · simp [_poll_task_status] at hc
      exact ⟨_, hc⟩

theorem catchRequestException_ok (res : Option (Except PyExc (Option String)))
    (v : Option String) (h : catchRequestException res = some (.ok v)) :
    res = some (.ok v) := by
  rcases res with _ | x
  · simp [catchRequestException] at h
  · rcases x with e | val
    · rcases e with e | cse | k | m <;> simp [catchRequestException] at h
    · simpa [catchRequestException] using h

theorem error_mappings_eq_coarse (code : Nat) :
    (error_mappings.lookup code).getD "Unexpected Error" = coarseDescription code := by
  by_cases h1 : code = 429
  · subst h1; rfl
  · by_cases h2 : code = 400
    · subst h2; rfl
    · by_cases h3 : code = 500
      · subst h3; rfl
      · simp [error_mappings, List.lookup, coarseDescription,
          beq_false_of_ne h1, beq_false_of_ne h2, beq_false_of_ne h3, h1, h2, h3]

theorem generate_attempt_snd_head (c : GPTClient) (env : Env)
    (msgs : List Message) (model : String) :
    ∃ rest, (generate_attempt c env msgs model).2 =
      NetCall.post (c.base_url ++ "/gpt")
        (_create_request_payload msgs ((available_models.lookup model).getD ""))
        (some c.timeout) :: rest ∧
      ∀ call ∈ rest, ∃ u, call = NetCall.get u none := by
  rcases hp : env.postResult with resp | cause
  · by_cases h200 : resp.status_code = 200
    · rcases hj : resp.json with _ | body
      · exact ⟨[], by simp [generate_attempt, hp, h200, hj], by simp⟩
      · refine ⟨(_poll_task_status c body.id env.pollResults).2, ?_, ?_⟩
        · rcases hpoll : (_poll_task_status c body.id env.pollResults).1 with _ | res
          · simp [generate_attempt, hp, h200, hj, hpoll]
          · rcases res with e | t
            · simp [generate_attempt, hp, h200, hj, hpoll]
            · by_cases hst : t.status = .COMPLETED <;>
                simp [generate_attempt, hp, h200, hj, hpoll, hst]
        · exact poll_calls_get_none c body.id env.pollResults
    · exact ⟨[], by simp [generate_attempt, hp, h200], by simp⟩
  · exact ⟨[], by simp [generate_attempt, hp], by simp⟩

/-! ## The claimed properties -/

/-- Claim C6: the polling loop continues exactly while the reply status is
"pending" and stops at the first non-pending status: given the reply-status
sequence ["pending", "pending", "completed"] with text payload "Hello!",
`generate_response` returns "Hello!", and exactly three polling GETs are
issued (two pending replies plus exactly one terminal reply), whatever
further replies the environment could have supplied. -/
theorem claim_C6 (c : GPTClient) (msgs : List Message) (tid : String)
    (rest : List NetResult) :
    generate_response c
        ⟨.ok ⟨200, some ⟨none, some tid, none, none⟩⟩,
          [pendOk, pendOk, complReply "Hello!"] ++ rest⟩ msgs "GPT-4"
      = some (.ok (some "Hello!")) ∧
    generate_response_calls c
        ⟨.ok ⟨200, some ⟨none, some tid, none, none⟩⟩,
          [pendOk, pendOk, complReply "Hello!"] ++ rest⟩ msgs "GPT-4"
      = [NetCall.post (c.base_url ++ "/gpt")
           ⟨msgs.map (fun m => ⟨m.role, m.content⟩), "gpt-4", false⟩ (some c.timeout),
         NetCall.get (c.base_url ++ "/task/" ++ tid) none,
         NetCall.get (c.base_url ++ "/task/" ++ tid) none,
         NetCall.get (c.base_url ++ "/task/" ++ tid) none] := by
  exact ⟨rfl, rfl⟩

/-- Claim C7: serializing a message list for submission preserves order and
the exact role and content strings: the payload's messages array has the same
length, and its i-th entry is exactly the role/content pair of the i-th input
message. -/
theorem claim_C7 (messages : List Message) (model : String) (i : Nat)
    (h : i < messages.length) :
    ((_create_request_payload messages model).messages).length = messages.length ∧
    ((_create_request_payload messages model).messages)[i]? =
      some ⟨(messages.get ⟨i, h⟩).role, (messages.get ⟨i, h⟩).content⟩ := by
  constructor
  · simp [_create_request_payload]
  · simp [_create_request_payload, List.getElem?_eq_getElem,
      List.getElem?_map, List.getElem?_eq_getElem h]

/-- Witness for C7 at the example conversation of the source's `main`:
a system message followed by a user message, checked at index 1. -/
theorem claim_C7_witness :
    ((_create_request_payload
        [⟨"system", "You are a helpful assistant."⟩, ⟨"user", "Hi"⟩]
        "gpt-4").messages).length = 2 ∧
    ((_create_request_payload
        [⟨"system", "You are a helpful assistant."⟩, ⟨"user", "Hi"⟩]
        "gpt-4").messages)[1]? = some ⟨"user", "Hi"⟩ :=
  claim_C7 [⟨"system", "You are a helpful assistant."⟩, ⟨"user", "Hi"⟩]
    "gpt-4" 1 (by decide)

/-- Claim C5: for every label present in the registry, the submission POST
carries exactly the payload `{messages, model, markdown := false}` where the
`model` field is the registry's mapped provider identifier for that label,
and that identifier never equals the display label itself. -/
theorem claim_C5 (c : GPTClient) (env : Env) (msgs : List Message)
    (model pid : String) (h : available_models.lookup model = some pid) :
    (∃ rest, generate_response_calls c env msgs model =
      NetCall.post (c.base_url ++ "/gpt")
        ⟨msgs.map (fun m => ⟨m.role, m.content⟩), pid, false⟩
        (some c.timeout) :: rest) ∧
    pid ≠ model := by
  have hv : validate_model model = true := by
    rw [validate_model, contains_eq_lookup_isSome, h]
    rfl
  constructor
  · obtain ⟨rest, heq, -⟩ := generate_attempt_snd_head c env msgs model
    rw [h] at heq
    refine ⟨rest, ?_⟩
    rw [generate_response_calls]
    simp only [hv, Bool.not_true, ite_false, not_true_eq_false]
    simpa [_create_request_payload] using heq
  · have hmem := lookup_mem h
    have hall : ∀ p ∈ available_models, p.2 ≠ p.1 := by decide
    intro hEq
    exact hall _ hmem (hEq ▸ rfl)

/-- Witness for C5 at the label "ChatGPT", whose provider identifier is
"chatgpt". -/
theorem claim_C5_witness :
    (∃ rest, generate_response_calls GPTClient.init ⟨okPost, []⟩ [] "ChatGPT" =
      NetCall.post (GPTClient.init.base_url ++ "/gpt")
        ⟨[], "chatgpt", false⟩ (some GPTClient.init.timeout) :: rest) ∧
    "chatgpt" ≠ "ChatGPT" :=
  claim_C5 GPTClient.init ⟨okPost, []⟩ [] "ChatGPT" "chatgpt" (by decide)

/-- Claim C9 (amended): the submission POST is issued with the per-call
timeout configured at construction, but every polling GET is issued with no
timeout argument at all, and the polling loop itself has no overall deadline:
a trace of n pending replies leaves the loop still running for every n. -/
theorem claim_C9 (c : GPTClient) (env : Env) (msgs : List Message)
    (model : String) :
    ((generate_response_calls c env msgs model).all (fun call =>
        match call with
        | .post _ _ t => t == some c.timeout
        | .get _ t => t == none)) = true ∧
    ∀ (n : Nat) (tid : Option String),
      (_poll_task_status c tid (List.replicate n pendOk)).1 = none := by
  constructor
  · rw [generate_response_calls]
    by_cases hv : validate_model model
    · simp only [hv, Bool.not_true, ite_false, not_true_eq_false]
      obtain ⟨rest, heq, hrest⟩ := generate_attempt_snd_head c env msgs model
      rw [heq, List.all_cons]
      refine Bool.and_intro (by simp) ?_
      rw [List.all_eq_true]
      intro call hc
      obtain ⟨u, rfl⟩ := hrest call hc
      simp
    · simp [hv]
  · intro n tid
    induction n with
    | zero => rfl
    | succ k ih =>
      rw [List.replicate_succ]
      have hstep := poll_fst_pending_prefix c tid [pendOk] (List.replicate k pendOk)
        (by decide)
      simpa using hstep.trans ih

/-- Counterexample to C9 as stated: with a single completed reply, the call
record is one POST (with the configured timeout) and one GET, and the GET
carries no timeout at all, so not every network call is bounded by the
configured per-call timeout. -/
theorem claim_C9_counterexample :
    ((generate_response_calls GPTClient.init ⟨okPost, [complReply "Hi"]⟩ [] "GPT-4").all
        (fun call => call.timeoutArg == some GPTClient.init.timeout)) = false ∧
    (generate_response_calls GPTClient.init ⟨okPost, [complReply "Hi"]⟩ [] "GPT-4").map
        NetCall.timeoutArg = [some 30, none] := by
  exact ⟨by decide, by decide⟩

/-- Claim C1: for every conversation and every registered model label,
`generate_response` returns a value only when the final polled `TaskResponse`
has status COMPLETED; whenever the poll loop ends in a `TaskResponse` of any
other status, `generate_response` raises an error and returns no value. -/
theorem claim_C1 (c : GPTClient) (env : Env) (msgs : List Message)
    (model : String) (hv : validate_model model = true) :
    (∀ v, generate_response c env msgs model = some (.ok v) →
      ∃ r body t, env.postResult = .ok r ∧ r.status_code = 200 ∧
        r.json = some body ∧
        (_poll_task_status c body.id env.pollResults).1 = some (.ok t) ∧
        t.status = .COMPLETED ∧ v = t.response) ∧
    (∀ (r : HttpResponse) (body : JsonBody) (t : TaskResponse),
      env.postResult = .ok r → r.status_code = 200 → r.json = some body →
      (_poll_task_status c body.id env.pollResults).1 = some (.ok t) →
      t.status ≠ .COMPLETED →
      generate_response c env msgs model =
        some (.error (.chatgpt (.base
          ("Task failed with status: " ++ t.status.pyStr))))) := by
  constructor
  · intro v hok
    rcases hp : env.postResult with r | cause
    · by_cases h200 : r.status_code = 200
      · rcases hj : r.json with _ | body
        · simp [generate_response, generate_attempt, hp, h200, hj, hv,
            catchRequestException] at hok
        · rw [generate_response_of_reached c env msgs model r body hv hp h200 hj] at hok
          have hok2 := catchRequestException_ok _ _ hok
          rcases hpoll : (_poll_task_status c body.id env.pollResults).1 with _ | res
          · rw [hpoll] at hok2; cases hok2
          · rcases res with e | t
            · rw [hpoll] at hok2; cases hok2
            · rw [hpoll] at hok2
              have hok3 : (if t.status = TaskStatus.COMPLETED
                  then some (Except.ok t.response)
                  else some (Except.error (PyExc.chatgpt (ChatGPTError.base
                    ("Task failed with status: " ++ t.status.pyStr))))) =
                  some (Except.ok v) := hok2
              by_cases hst : t.status = .COMPLETED
              · rw [if_pos hst] at hok3
                exact ⟨r, body, t, rfl, h200, hj, hpoll, hst,
                  (Except.ok.inj (Option.some.inj hok3)).symm⟩
              · rw [if_neg hst] at hok3; cases hok3
      · simp only [generate_response, hv, Bool.not_true, not_true_eq_false,
          ite_false, if_false] at hok
        have hok2 := catchRequestException_ok _ _ hok
        rcases hje : r.json with _ | body <;>
          simp [generate_attempt, hp, h200, hje, _handle_api_error] at hok2
    · simp [generate_response, generate_attempt, hp, hv,
        catchRequestException] at hok
  · intro r body t hp h200 hj hpoll hst
    rw [generate_response_of_reached c env msgs model r body hv hp h200 hj, hpoll]
    simp [hst, catchRequestException]

/-- Witness for C1: a poll ending in the terminal state ERROR makes the call
raise `ChatGPTError` instead of returning a value. -/
theorem claim_C1_witness :
    generate_response GPTClient.init ⟨okPost, [statusReply "error"]⟩ [] "GPT-4" =
      some (.error (.chatgpt (.base "Task failed with status: TaskStatus.ERROR"))) :=
  (claim_C1 GPTClient.init ⟨okPost, [statusReply "error"]⟩ [] "GPT-4" (by decide)).2
    ⟨200, some ⟨none, some "t1", none, none⟩⟩ ⟨none, some "t1", none, none⟩
    ⟨some "t1", .ERROR, none⟩ rfl rfl rfl rfl (by decide)

/-- Claim C2 (amended): for a polling reply (HTTP 200, JSON body) whose
status string is neither "completed" nor "pending", the behavior depends on
whether the uppercased status names a `TaskStatus` member: a member other
than COMPLETED (e.g. "error", "not_found") raises a `ChatGPTError` carrying
the mapped `TaskStatus`; a spelling of COMPLETED (e.g. "Completed") returns
success with `None`; and any other string (including the spec's "not-found")
raises a `KeyError` that is not part of the library's error hierarchy. -/
theorem claim_C2 (c : GPTClient) (env : Env) (msgs : List Message)
    (model : String) (r : HttpResponse) (body data : JsonBody) (s : String)
    (rest : List NetResult) (hv : validate_model model = true)
    (hp : env.postResult = .ok r) (h200 : r.status_code = 200)
    (hj : r.json = some body)
    (hpr : env.pollResults = NetResult.ok ⟨200, some data⟩ :: rest)
    (hs : data.status = some s) (hnc : s ≠ "completed") (hnp : s ≠ "pending") :
    generate_response c env msgs model = some (
      match TaskStatus.byName (pyUpper s) with
      | some st =>
          if st = .COMPLETED then Except.ok none
          else Except.error (.chatgpt (.base
            ("Task failed with status: " ++ st.pyStr)))
      | none => Except.error (.keyError (pyUpper s))) := by
  rw [generate_response_of_reached c env msgs model r body hv hp h200 hj, hpr]
  rcases hname : TaskStatus.byName (pyUpper s) with _ | st
  · simp [_poll_task_status, hs, hnc, hnp, hname, catchRequestException]
  · by_cases hco : st = .COMPLETED
    · subst hco
      simp [_poll_task_status, hs, hnc, hnp, hname, catchRequestException]
    · simp [_poll_task_status, hs, hnc, hnp, hname, hco, catchRequestException]

/-- Witness for C2 (amended) at status "not_found", whose uppercasing does
name a `TaskStatus` member: the call fails with the library's base error. -/
theorem claim_C2_witness :
    generate_response GPTClient.init ⟨okPost, [statusReply "not_found"]⟩ [] "GPT-4" =
      some (.error (.chatgpt (.base "Task failed with status: TaskStatus.NOT_FOUND"))) :=
  claim_C2 GPTClient.init ⟨okPost, [statusReply "not_found"]⟩ [] "GPT-4"
    ⟨200, some ⟨none, some "t1", none, none⟩⟩ ⟨none, some "t1", none, none⟩
    ⟨none, none, some "not_found", none⟩ "not_found" []
    (by decide) rfl rfl rfl rfl rfl (by decide) (by decide)

/-- Counterexample to C2 as stated: the polling status "not-found" — named by
the claim itself — does not surface as an error of the library's kind: the
uppercased string "NOT-FOUND" is not a `TaskStatus` member name, so an
uncategorized `KeyError` escapes, which is not catchable as the base
`ChatGPTError`. -/
theorem claim_C2_counterexample :
    generate_response GPTClient.init ⟨okPost, [statusReply "not-found"]⟩ [] "GPT-4"
      = some (.error (.keyError "NOT-FOUND")) ∧
    resultCatchableAsChatGPTError
      (generate_response GPTClient.init ⟨okPost, [statusReply "not-found"]⟩ [] "GPT-4")
      = false := by
  exact ⟨rfl, rfl⟩

/-- Claim C3 (amended): at the submission call site, a non-success HTTP
status produces an `APIError` whose description is selected by status code
(429, 400, 500, otherwise "Unexpected Error") and whose message comes from
the response body with fallback "Unknown error"; at the polling call site the
mapping is NOT applied: every non-200 reply produces an `APIError` with the
fixed message "Task polling failed" and the fixed description "Failed to
retrieve task status", whatever the status code and body say. -/
theorem claim_C3 (c : GPTClient) (env : Env) (msgs : List Message)
    (model : String) :
    (∀ (r : HttpResponse) (body : JsonBody),
      validate_model model = true → env.postResult = .ok r →
      r.status_code ≠ 200 → r.json = some body →
      generate_response c env msgs model =
        some (.error (.chatgpt (.apiError r.status_code
          (body.message.getD "Unknown error")
          (coarseDescription r.status_code))))) ∧
    (∀ (r r2 : HttpResponse) (body : JsonBody) (rest : List NetResult),
      validate_model model = true → env.postResult = .ok r →
      r.status_code = 200 → r.json = some body →
      env.pollResults = NetResult.ok r2 :: rest → r2.status_code ≠ 200 →
      generate_response c env msgs model =
        some (.error (.chatgpt (.apiError r2.status_code
          "Task polling failed" "Failed to retrieve task status")))) := by
  constructor
  · intro r body hv hp h200 hj
    rw [generate_response]
    simp only [hv, Bool.not_true, not_true_eq_false, ite_false, if_false]
    simp [generate_attempt, hp, h200, hj, _handle_api_error,
      catchRequestException, error_mappings_eq_coarse]
  · intro r r2 body rest hv hp h200 hj hpr h2ne
    rw [generate_response_of_reached c env msgs model r body hv hp h200 hj, hpr]
    simp [_poll_task_status, h2ne, catchRequestException]

/-- Witness for C3 (amended): a 429 at submission gets the mapped
description "Too Many Requests" and the body's message, while a 500 during
polling gets the fixed polling-site strings. -/
theorem claim_C3_witness :
    generate_response GPTClient.init
        ⟨.ok ⟨429, some ⟨some "slow", none, none, none⟩⟩, []⟩ [] "GPT-4" =
      some (.error (.chatgpt (.apiError 429 "slow" "Too Many Requests"))) ∧
    generate_response GPTClient.init
        ⟨okPost, [.ok ⟨500, some JsonBody.empty⟩]⟩ [] "GPT-4" =
      some (.error (.chatgpt (.apiError 500
        "Task polling failed" "Failed to retrieve task status"))) :=
  ⟨(claim_C3 GPTClient.init ⟨.ok ⟨429, some ⟨some "slow", none, none, none⟩⟩, []⟩
      [] "GPT-4").1 ⟨429, some ⟨some "slow", none, none, none⟩⟩
      ⟨some "slow", none, none, none⟩ (by decide) rfl (by decide) rfl,
   (claim_C3 GPTClient.init ⟨okPost, [.ok ⟨500, some JsonBody.empty⟩]⟩
      [] "GPT-4").2 ⟨200, some ⟨none, some "t1", none, none⟩⟩
      ⟨500, some JsonBody.empty⟩ ⟨none, some "t1", none, none⟩ []
      (by decide) rfl rfl rfl rfl (by decide)⟩

/-- Counterexample to C3 as stated: a 429 reply with a body message during
polling does not get the status-code mapping: the error carries the fixed
strings "Task polling failed" / "Failed to retrieve task status" instead of
the body message and "Too Many Requests". -/
theorem claim_C3_counterexample :
    generate_response GPTClient.init
        ⟨okPost, [.ok ⟨429, some ⟨some "slow", none, none, none⟩⟩]⟩ [] "GPT-4"
      = some (.error (.chatgpt (.apiError 429
          "Task polling failed" "Failed to retrieve task status"))) ∧
    generate_response GPTClient.init
        ⟨okPost, [.ok ⟨429, some ⟨some "slow", none, none, none⟩⟩]⟩ [] "GPT-4"
      ≠ some (.error (.chatgpt (.apiError 429 "slow" "Too Many Requests"))) := by
  exact ⟨rfl, by decide⟩

/-- Claim C4: `validate_model` returns true iff the label is a key of the
registry; for every unregistered label, `generate_response` fails with
`ModelNotFoundError` before issuing any network call, and the error message
contains every currently supported label. -/
theorem claim_C4 (c : GPTClient) (env : Env) (msgs : List Message)
    (model : String) :
    (validate_model model = true ↔ model ∈ available_models.map Prod.fst) ∧
    (validate_model model = false →
      generate_response c env msgs model =
        some (.error (.chatgpt (.modelNotFound (modelNotFoundMessage model)))) ∧
      generate_response_calls c env msgs model = [] ∧
      ∀ l ∈ available_models.map Prod.fst,
        strDataContains (modelNotFoundMessage model) l) := by
  constructor
  · rw [validate_model]
    exact List.elem_iff
  · intro hval
    refine ⟨?_, ?_, ?_⟩
    · simp [generate_response, hval]
    · simp [generate_response_calls, hval]
    · intro l hl
      exact strDataContains_append_left _ _ _ (pyJoin_contains ", " _ l hl)

/-- Witness for C4 at the unregistered label "GPT-5": the call fails with
`ModelNotFoundError` and no network call is recorded. -/
theorem claim_C4_witness :
    generate_response GPTClient.init ⟨okPost, []⟩ [] "GPT-5" =
      some (.error (.chatgpt (.modelNotFound (modelNotFoundMessage "GPT-5")))) ∧
    generate_response_calls GPTClient.init ⟨okPost, []⟩ [] "GPT-5" = [] :=
  ⟨((claim_C4 GPTClient.init ⟨okPost, []⟩ [] "GPT-5").2 (by decide)).1,
   ((claim_C4 GPTClient.init ⟨okPost, []⟩ [] "GPT-5").2 (by decide)).2.1⟩

/-- Claim C8: every transport-level failure — a `RequestException` at the
submission POST, a `RequestException` at a polling GET reached after pending
replies, a malformed (non-JSON) submission body, or a malformed polling body
(an HTTP-200 GET reply whose body `response.json()` cannot parse, reached
after pending replies) — surfaces as the communication failure
`ChatGPTError("Request failed: ...")` wrapping the underlying cause, never as
a hang (`none`) or a silent empty result. -/
theorem claim_C8 (c : GPTClient) (env : Env) (msgs : List Message)
    (model : String) (cause : String) (hv : validate_model model = true)
    (hocc : env.postResult = .exc cause ∨
      (∃ r body pre rest, env.postResult = .ok r ∧ r.status_code = 200 ∧
        r.json = some body ∧
        env.pollResults = pre ++ NetResult.exc cause :: rest ∧
        pre.all isPendingOk = true) ∨
      (∃ r, env.postResult = .ok r ∧ r.json = none ∧ cause = "JSONDecodeError") ∨
      (∃ r body pre rest r2, env.postResult = .ok r ∧ r.status_code = 200 ∧
        r.json = some body ∧
        env.pollResults = pre ++ NetResult.ok r2 :: rest ∧
        pre.all isPendingOk = true ∧
        r2.status_code = 200 ∧ r2.json = none ∧ cause = "JSONDecodeError")) :
    generate_response c env msgs model =
      some (.error (.chatgpt (.base ("Request failed: " ++ cause)))) := by
  rcases hocc with hp | ⟨r, body, pre, rest, hp, h200, hj, hpr, hpre⟩ |
    ⟨r, hp, hj, hc⟩ | ⟨r, body, pre, rest, r2, hp, h200, hj, hpr, hpre, h2c, h2j, hc⟩
  · simp [generate_response, generate_attempt, hp, hv, catchRequestException]
  · rw [generate_response_of_reached c env msgs model r body hv hp h200 hj, hpr,
      poll_fst_pending_prefix c body.id pre _ hpre]
    simp [_poll_task_status, catchRequestException]
  · subst hc
    by_cases h200 : r.status_code = 200
    · simp [generate_response, generate_attempt, hp, h200, hj, hv,
        catchRequestException]
    · simp [generate_response, generate_attempt, hp, h200, hj, hv,
        catchRequestException, _handle_api_error]
  · subst hc
    rw [generate_response_of_reached c env msgs model r body hv hp h200 hj, hpr,
      poll_fst_pending_prefix c body.id pre _ hpre]
    simp [_poll_task_status, h2c, h2j, catchRequestException]

/-- Witness for C8: a timeout at the submission POST surfaces as the wrapped
communication failure, and so does a malformed polling body (HTTP 200 whose
body is not JSON) reached after a pending reply. -/
theorem claim_C8_witness :
    (generate_response GPTClient.init ⟨.exc "timeout", []⟩ [] "GPT-4" =
      some (.error (.chatgpt (.base "Request failed: timeout")))) ∧
    (generate_response GPTClient.init ⟨okPost, [pendOk, .ok ⟨200, none⟩]⟩ [] "GPT-4" =
      some (.error (.chatgpt (.base "Request failed: JSONDecodeError")))) :=
  ⟨claim_C8 GPTClient.init ⟨.exc "timeout", []⟩ [] "GPT-4" "timeout"
      (by decide) (Or.inl rfl),
   claim_C8 GPTClient.init ⟨okPost, [pendOk, .ok ⟨200, none⟩]⟩ [] "GPT-4"
      "JSONDecodeError" (by decide)
      (Or.inr (Or.inr (Or.inr ⟨⟨200, some ⟨none, some "t1", none, none⟩⟩,
        ⟨none, some "t1", none, none⟩, [pendOk], [], ⟨200, none⟩,
        rfl, rfl, rfl, rfl, by decide, rfl, rfl, rfl⟩)))⟩

/-- Claim C10: a polling reply with status "completed" whose body lacks the
`gpt` text field makes `generate_response` succeed and return `None` rather
than a string, so the success path does not guarantee a string result. -/
theorem claim_C10 :
    generate_response GPTClient.init
        ⟨okPost, [.ok ⟨200, some ⟨none, none, some "completed", none⟩⟩]⟩ [] "GPT-4"
      = some (.ok none) := by
  rfl

end ChatGPTClient
